import Mathlib

/-!
# The message router of `mp` (`mp/msg_server_mux.go`)

A shallow embedding of `MessageServeMux`: two handler tables (message type to
handler, event type to handler) and two default handlers.  Registration
mutates the router through a pointer and may panic, so every registration is a
function from the router state to an `Outcome` holding the state the router is
left in and the panic value, if any.  Dispatch (`ServeMessage`) only reads the
router; what it does to the outside world is the list of `Effect`s it performs.

The read/write mutex changes none of the four fields, so that reading of the
methods leaves it out.  The lock discipline is stated on a second reading of the same
methods (`MessageHandleTraced`, `messageHandlerTraced`, `ServeMessageTraced`,
...), which lists, in program order, every call on `mux.rwmutex`, every access
to the four fields and every handler call; it is shown to compute the same
states and the same handler calls as the first.
-/

namespace Mp

/-! ## Data model -/

/-- A Go function value of type `func(http.ResponseWriter, *Request)`: `none`
is the nil function, `some i` the function with identity `i`. -/
abbrev HandlerFn := Option Nat

/-- A value of the interface type `MessageHandler`.  `nil` is the nil interface
value (no dynamic type).  `func fn` is a value whose dynamic type is
`MessageHandlerFunc`; it is a non-nil interface value even when the function
`fn` inside it is nil.  `impl i` is a value of any other type that has a
`ServeMessage` method. -/
inductive MessageHandler where
  | nil : MessageHandler
  | func (fn : HandlerFn) : MessageHandler
  | impl (id : Nat) : MessageHandler
deriving DecidableEq, Repr

/-- The conversion `MessageHandlerFunc(fn)` followed by the implicit conversion
to the interface type `MessageHandler` at the call of a registration method. -/
def MessageHandlerFunc (fn : HandlerFn) : MessageHandler := MessageHandler.func fn

/-- Modelled from the spec: the type `MessageHandlerFunc` and its method are
declared in a file of package `mp` that is not part of the sources at hand.  The
spec describes a handler as "an opaque capability exposing one operation",
supplied as a "function value" among other variants; the method of the function
adapter calls the function it wraps, so invoking the handler succeeds in calling
code exactly when the handler is not the nil interface and does not wrap the
nil function. -/
def MessageHandler.invocable : MessageHandler → Bool
  | MessageHandler.nil => false
  | MessageHandler.func none => false
  | MessageHandler.func (some _) => true
  | MessageHandler.impl _ => true

/-- A Go `map[string]MessageHandler`: `none` is the nil map, `some m` an
allocated map in which `m k = none` says that `k` is not a key. -/
abbrev HandlerMap := Option (String → Option MessageHandler)

/-- The result of `make(map[string]MessageHandler)`. -/
def HandlerMap.make : HandlerMap := some (fun _ => none)

/-- The comparison `m == nil`. -/
def HandlerMap.isNil (m : HandlerMap) : Bool :=
  match m with
  | none => true
  | some _ => false

/-- The entry stored under `k`, if there is one. -/
def HandlerMap.entry (m : HandlerMap) (k : String) : Option MessageHandler :=
  match m with
  | none => none
  | some t => t k

/-- Whether `k` is a key of the map; a nil map has no keys. -/
def HandlerMap.hasKey (m : HandlerMap) (k : String) : Bool :=
  (HandlerMap.entry m k).isSome

/-- The index expression `m[k]`: the stored value, or the zero value of the
element type (the nil interface) when `k` is not a key or the map is nil. -/
def HandlerMap.index (m : HandlerMap) (k : String) : MessageHandler :=
  (HandlerMap.entry m k).getD MessageHandler.nil

/-- The assignment `m[k] = v` on an allocated map: insert or overwrite.  (On a
nil map the assignment panics; every caller allocates first.) -/
def HandlerMap.assign (m : HandlerMap) (k : String) (v : MessageHandler) : HandlerMap :=
  match m with
  | none => none
  | some t => some (fun k' => if k' = k then some v else t k')

/-- The fields of `MessageServeMux` other than the mutex. -/
structure MessageServeMux where
  messageHandlers : HandlerMap
  eventHandlers : HandlerMap
  defaultMessageHandler : MessageHandler
  defaultEventHandler : MessageHandler

/-- The function `NewMessageServeMux`: both maps allocated and empty, both
defaults nil. -/
def NewMessageServeMux : MessageServeMux :=
  { messageHandlers := HandlerMap.make
    eventHandlers := HandlerMap.make
    defaultMessageHandler := MessageHandler.nil
    defaultEventHandler := MessageHandler.nil }

/-- The fields of `MixedMsg` that the router reads. -/
structure MixedMsg where
  MsgType : String
  Event : String
deriving DecidableEq, Repr

/-- A `*Request`: the decoded message and, as `rest`, everything else the
request carries (opaque to the router). -/
structure Request where
  MixedMsg : MixedMsg
  rest : Nat
deriving DecidableEq, Repr

/-- An `http.ResponseWriter`, by identity. -/
abbrev ResponseWriter := Nat

/-- What a registration call leaves behind: the router state after the call and
the value it panicked with, `none` when it returned. -/
structure Outcome where
  mux : MessageServeMux
  panic : Option String

/-- What a call of the router does to the outside world: it calls
`handler.ServeMessage(w, r)`, or it writes bytes to a response writer. -/
inductive Effect where
  | serve (handler : MessageHandler) (w : ResponseWriter) (r : Request) : Effect
  | write (w : ResponseWriter) (bytes : List Nat) : Effect
deriving DecidableEq, Repr

/-! ## Registration -/

/-- The method `MessageHandle`. -/
def MessageHandle (mux : MessageServeMux) (msgType : String) (handler : MessageHandler) :
    Outcome :=
  if msgType = "" then
    { mux := mux, panic := some "mp: invalid msgType" }
  else if handler = MessageHandler.nil then
    { mux := mux, panic := some "mp: nil handler" }
  else
    let mux1 : MessageServeMux :=
      if HandlerMap.isNil mux.messageHandlers then
        { mux with messageHandlers := HandlerMap.make }
      else mux
    { mux := { mux1 with
                messageHandlers := HandlerMap.assign mux1.messageHandlers msgType handler }
      panic := none }

/-- The method `MessageHandleFunc`. -/
def MessageHandleFunc (mux : MessageServeMux) (msgType : String) (handler : HandlerFn) :
    Outcome :=
  MessageHandle mux msgType (MessageHandlerFunc handler)

/-- The method `DefaultMessageHandle`. -/
def DefaultMessageHandle (mux : MessageServeMux) (handler : MessageHandler) : Outcome :=
  if handler = MessageHandler.nil then
    { mux := mux, panic := some "mp: nil handler" }
  else
    { mux := { mux with defaultMessageHandler := handler }, panic := none }

/-- The method `DefaultMessageHandleFunc`. -/
def DefaultMessageHandleFunc (mux : MessageServeMux) (handler : HandlerFn) : Outcome :=
  DefaultMessageHandle mux (MessageHandlerFunc handler)

/-- The method `EventHandle`. -/
def EventHandle (mux : MessageServeMux) (eventType : String) (handler : MessageHandler) :
    Outcome :=
  if eventType = "" then
    { mux := mux, panic := some "mp: invalid eventType" }
  else if handler = MessageHandler.nil then
    { mux := mux, panic := some "mp: nil handler" }
  else
    let mux1 : MessageServeMux :=
      if HandlerMap.isNil mux.eventHandlers then
        { mux with eventHandlers := HandlerMap.make }
      else mux
    { mux := { mux1 with
                eventHandlers := HandlerMap.assign mux1.eventHandlers eventType handler }
      panic := none }

/-- The method `EventHandleFunc`. -/
def EventHandleFunc (mux : MessageServeMux) (eventType : String) (handler : HandlerFn) :
    Outcome :=
  EventHandle mux eventType (MessageHandlerFunc handler)

/-- The method `DefaultEventHandle`. -/
def DefaultEventHandle (mux : MessageServeMux) (handler : MessageHandler) : Outcome :=
  if handler = MessageHandler.nil then
    { mux := mux, panic := some "mp: nil handler" }
  else
    { mux := { mux with defaultEventHandler := handler }, panic := none }

/-- The method `DefaultEventHandleFunc`. -/
def DefaultEventHandleFunc (mux : MessageServeMux) (handler : HandlerFn) : Outcome :=
  DefaultEventHandle mux (MessageHandlerFunc handler)

/-! ## Dispatch -/

/-- The method `messageHandler`: the handler for `msgType`, nil when there is
none. -/
def messageHandler (mux : MessageServeMux) (msgType : String) : MessageHandler :=
  if msgType = "" then MessageHandler.nil
  else
    let handler := HandlerMap.index mux.messageHandlers msgType
    if handler ≠ MessageHandler.nil then handler
    else mux.defaultMessageHandler

/-- The method `eventHandler`: the handler for `eventType`, nil when there is
none. -/
def eventHandler (mux : MessageServeMux) (eventType : String) : MessageHandler :=
  if eventType = "" then MessageHandler.nil
  else
    let handler := HandlerMap.index mux.eventHandlers eventType
    if handler ≠ MessageHandler.nil then handler
    else mux.defaultEventHandler

/-- The method `ServeMessage` of the router: the effects it performs, in
order. -/
def ServeMessage (mux : MessageServeMux) (w : ResponseWriter) (r : Request) : List Effect :=
  if r.MixedMsg.MsgType = "event" then
    let handler := eventHandler mux r.MixedMsg.Event
    if handler = MessageHandler.nil then []
    else [Effect.serve handler w r]
  else
    let handler := messageHandler mux r.MixedMsg.MsgType
    if handler = MessageHandler.nil then []
    else [Effect.serve handler w r]

/-! ## Observations on an effect list -/

/-- The handler invocations among the effects, in order. -/
def invocations : List Effect → List (MessageHandler × ResponseWriter × Request)
  | [] => []
  | Effect.serve h w r :: rest => (h, w, r) :: invocations rest
  | Effect.write _ _ :: rest => invocations rest

/-- The number of bytes the effects write to the writer `w`. -/
def bytesWritten (w : ResponseWriter) : List Effect → Nat
  | [] => 0
  | Effect.serve _ _ _ :: rest => bytesWritten w rest
  | Effect.write w1 bytes :: rest =>
      (if w1 = w then bytes.length else 0) + bytesWritten w rest

/-! ## Sequences of registration calls -/

/-- One call of one of the eight registration methods, with its arguments. -/
inductive Registration where
  | messageHandle (msgType : String) (handler : MessageHandler)
  | messageHandleFunc (msgType : String) (handler : HandlerFn)
  | defaultMessageHandle (handler : MessageHandler)
  | defaultMessageHandleFunc (handler : HandlerFn)
  | eventHandle (eventType : String) (handler : MessageHandler)
  | eventHandleFunc (eventType : String) (handler : HandlerFn)
  | defaultEventHandle (handler : MessageHandler)
  | defaultEventHandleFunc (handler : HandlerFn)

/-- Perform one registration call on the router. -/
def Registration.run (mux : MessageServeMux) : Registration → Outcome
  | Registration.messageHandle k h => MessageHandle mux k h
  | Registration.messageHandleFunc k f => MessageHandleFunc mux k f
  | Registration.defaultMessageHandle h => DefaultMessageHandle mux h
  | Registration.defaultMessageHandleFunc f => DefaultMessageHandleFunc mux f
  | Registration.eventHandle k h => EventHandle mux k h
  | Registration.eventHandleFunc k f => EventHandleFunc mux k f
  | Registration.defaultEventHandle h => DefaultEventHandle mux h
  | Registration.defaultEventHandleFunc f => DefaultEventHandleFunc mux f

/-- The router state after a sequence of registration calls, a panicking call
(recovered by the caller) leaving the state it left. -/
def registerAll (mux : MessageServeMux) : List Registration → MessageServeMux
  | [] => mux
  | c :: cs => registerAll (Registration.run mux c).mux cs

/-- The states reachable from `NewMessageServeMux()` by registration calls. -/
def Reachable (mux : MessageServeMux) : Prop :=
  ∃ calls : List Registration, registerAll NewMessageServeMux calls = mux

/-! ## What a request consults -/

/-- The table and the key that `ServeMessage` consults for a request: the event
table under `Event` when `MsgType` is "event", the message table under
`MsgType` otherwise. -/
def consultedTable (mux : MessageServeMux) (r : Request) : HandlerMap :=
  if r.MixedMsg.MsgType = "event" then mux.eventHandlers else mux.messageHandlers

/-- The key that `ServeMessage` looks up for a request. -/
def consultedKey (r : Request) : String :=
  if r.MixedMsg.MsgType = "event" then r.MixedMsg.Event else r.MixedMsg.MsgType

/-- The default slot that belongs to the table consulted for a request. -/
def consultedDefault (mux : MessageServeMux) (r : Request) : MessageHandler :=
  if r.MixedMsg.MsgType = "event" then mux.defaultEventHandler
  else mux.defaultMessageHandler

/-! ## The checked part of the registration invariant -/

/-- The part of the registration invariant that the nil test of the
registration methods does establish: the empty string is a key of neither
table, and neither table stores the nil interface value. -/
def KeysAndValuesChecked (mux : MessageServeMux) : Prop :=
  HandlerMap.hasKey mux.messageHandlers "" = false ∧
  HandlerMap.hasKey mux.eventHandlers "" = false ∧
  (∀ k, HandlerMap.entry mux.messageHandlers k ≠ some MessageHandler.nil) ∧
  (∀ k, HandlerMap.entry mux.eventHandlers k ≠ some MessageHandler.nil)

/-! ## The methods with their mutex calls and field accesses -/

/-- One step of a router method, as seen from outside its goroutine: a call on
`mux.rwmutex` (`Lock`, `Unlock`, `RLock`, `RUnlock`), a read or a write of one
of the router's four fields (a map access counts as an access to its field), or
the call `handler.ServeMessage(w, r)`. -/
inductive Event where
  | Lock : Event
  | Unlock : Event
  | RLock : Event
  | RUnlock : Event
  | read : Event
  | write : Event
  | serve (handler : MessageHandler) (w : ResponseWriter) (r : Request) : Event
deriving DecidableEq, Repr

/-- A `sync.RWMutex`: how many read locks are held and whether the write lock
is held. -/
structure RWMutex where
  readers : Nat
  writer : Bool
deriving DecidableEq, Repr

/-- The zero value of `sync.RWMutex`: nothing held. -/
def RWMutex.free : RWMutex := { readers := 0, writer := false }

/-- The standard library's `sync.RWMutex` on one event: `Lock` proceeds only
when nothing is held, `RLock` only when the write lock is not held, `Unlock`
and `RUnlock` only when the matching lock is held; `none` says that the call
cannot proceed from this state (an acquisition blocks, a release of a lock that
is not held is a fatal error).  Events that are not mutex calls leave the mutex
as it is. -/
def RWMutex.step (s : RWMutex) : Event → Option RWMutex
  | Event.Lock =>
      if s.readers = 0 ∧ s.writer = false then some { s with writer := true } else none
  | Event.Unlock =>
      if s.writer = true then some { s with writer := false } else none
  | Event.RLock =>
      if s.writer = false then some { s with readers := s.readers + 1 } else none
  | Event.RUnlock =>
      if 0 < s.readers then some { s with readers := s.readers - 1 } else none
  | Event.read => some s
  | Event.write => some s
  | Event.serve _ _ _ => some s

/-- Run a sequence of events on the mutex; `none` as soon as one call cannot
proceed. -/
def RWMutex.run (s : RWMutex) : List Event → Option RWMutex
  | [] => some s
  | e :: rest =>
      match RWMutex.step s e with
      | none => none
      | some s1 => RWMutex.run s1 rest

/-- The lock discipline of one call that starts holding `s` (of its own): every
mutex call can proceed, every read of a field happens with the read or the
write lock held, every write with the write lock held, every handler call with
nothing held, and nothing is held at the end. -/
def locksRespected (s : RWMutex) : List Event → Bool
  | [] => decide (s = RWMutex.free)
  | Event.read :: rest => (decide (0 < s.readers) || s.writer) && locksRespected s rest
  | Event.write :: rest => s.writer && locksRespected s rest
  | Event.serve _ _ _ :: rest => decide (s = RWMutex.free) && locksRespected s rest
  | Event.Lock :: rest =>
      match RWMutex.step s Event.Lock with
      | none => false
      | some s1 => locksRespected s1 rest
  | Event.Unlock :: rest =>
      match RWMutex.step s Event.Unlock with
      | none => false
      | some s1 => locksRespected s1 rest
  | Event.RLock :: rest =>
      match RWMutex.step s Event.RLock with
      | none => false
      | some s1 => locksRespected s1 rest
  | Event.RUnlock :: rest =>
      match RWMutex.step s Event.RUnlock with
      | none => false
      | some s1 => locksRespected s1 rest

/-- Whether the event is a mutex call in read mode or a read of a field. -/
def Event.isReadSide : Event → Bool
  | Event.RLock => true
  | Event.RUnlock => true
  | Event.read => true
  | _ => false

/-- Whether the event is a read or a write of a field. -/
def Event.isAccess : Event → Bool
  | Event.read => true
  | Event.write => true
  | _ => false

/-- The method `MessageHandle`, with its events: the two argument checks panic
before the mutex is touched; otherwise `Lock`, the nil test of the map (a
read), the allocation when the map is nil (a write), the map assignment (a
write), and the deferred `Unlock` at the return. -/
def MessageHandleTraced (mux : MessageServeMux) (msgType : String)
    (handler : MessageHandler) : List Event × Outcome :=
  if msgType = "" then
    ([], { mux := mux, panic := some "mp: invalid msgType" })
  else if handler = MessageHandler.nil then
    ([], { mux := mux, panic := some "mp: nil handler" })
  else
    let isNil := HandlerMap.isNil mux.messageHandlers
    let mux1 : MessageServeMux :=
      if isNil then { mux with messageHandlers := HandlerMap.make } else mux
    ([Event.Lock, Event.read] ++ (if isNil then [Event.write] else []) ++
        [Event.write, Event.Unlock],
      { mux := { mux1 with
                  messageHandlers := HandlerMap.assign mux1.messageHandlers msgType handler }
        panic := none })

/-- The method `MessageHandleFunc`, with its events. -/
def MessageHandleFuncTraced (mux : MessageServeMux) (msgType : String)
    (handler : HandlerFn) : List Event × Outcome :=
  MessageHandleTraced mux msgType (MessageHandlerFunc handler)

/-- The method `DefaultMessageHandle`, with its events. -/
def DefaultMessageHandleTraced (mux : MessageServeMux) (handler : MessageHandler) :
    List Event × Outcome :=
  if handler = MessageHandler.nil then
    ([], { mux := mux, panic := some "mp: nil handler" })
  else
    ([Event.Lock, Event.write, Event.Unlock],
      { mux := { mux with defaultMessageHandler := handler }, panic := none })

/-- The method `DefaultMessageHandleFunc`, with its events. -/
def DefaultMessageHandleFuncTraced (mux : MessageServeMux) (handler : HandlerFn) :
    List Event × Outcome :=
  DefaultMessageHandleTraced mux (MessageHandlerFunc handler)

/-- The method `EventHandle`, with its events. -/
def EventHandleTraced (mux : MessageServeMux) (eventType : String)
    (handler : MessageHandler) : List Event × Outcome :=
  if eventType = "" then
    ([], { mux := mux, panic := some "mp: invalid eventType" })
  else if handler = MessageHandler.nil then
    ([], { mux := mux, panic := some "mp: nil handler" })
  else
    let isNil := HandlerMap.isNil mux.eventHandlers
    let mux1 : MessageServeMux :=
      if isNil then { mux with eventHandlers := HandlerMap.make } else mux
    ([Event.Lock, Event.read] ++ (if isNil then [Event.write] else []) ++
        [Event.write, Event.Unlock],
      { mux := { mux1 with
                  eventHandlers := HandlerMap.assign mux1.eventHandlers eventType handler }
        panic := none })

/-- The method `EventHandleFunc`, with its events. -/
def EventHandleFuncTraced (mux : MessageServeMux) (eventType : String)
    (handler : HandlerFn) : List Event × Outcome :=
  EventHandleTraced mux eventType (MessageHandlerFunc handler)

/-- The method `DefaultEventHandle`, with its events. -/
def DefaultEventHandleTraced (mux : MessageServeMux) (handler : MessageHandler) :
    List Event × Outcome :=
  if handler = MessageHandler.nil then
    ([], { mux := mux, panic := some "mp: nil handler" })
  else
    ([Event.Lock, Event.write, Event.Unlock],
      { mux := { mux with defaultEventHandler := handler }, panic := none })

/-- The method `DefaultEventHandleFunc`, with its events. -/
def DefaultEventHandleFuncTraced (mux : MessageServeMux) (handler : HandlerFn) :
    List Event × Outcome :=
  DefaultEventHandleTraced mux (MessageHandlerFunc handler)

/-- The method `messageHandler`, with its events: the empty key returns before
the mutex is touched; otherwise `RLock`, the map lookup (a read), the read of
the default when the lookup gave nil, and the deferred `RUnlock` at the
return. -/
def messageHandlerTraced (mux : MessageServeMux) (msgType : String) :
    List Event × MessageHandler :=
  if msgType = "" then ([], MessageHandler.nil)
  else
    let handler := HandlerMap.index mux.messageHandlers msgType
    if handler ≠ MessageHandler.nil then
      ([Event.RLock, Event.read, Event.RUnlock], handler)
    else
      ([Event.RLock, Event.read, Event.read, Event.RUnlock], mux.defaultMessageHandler)

/-- The method `eventHandler`, with its events. -/
def eventHandlerTraced (mux : MessageServeMux) (eventType : String) :
    List Event × MessageHandler :=
  if eventType = "" then ([], MessageHandler.nil)
  else
    let handler := HandlerMap.index mux.eventHandlers eventType
    if handler ≠ MessageHandler.nil then
      ([Event.RLock, Event.read, Event.RUnlock], handler)
    else
      ([Event.RLock, Event.read, Event.read, Event.RUnlock], mux.defaultEventHandler)

/-- The method `ServeMessage` of the router, with its events: those of the
lookup, which has returned (and run its deferred `RUnlock`) before the handler
it returned is tested and called. -/
def ServeMessageTraced (mux : MessageServeMux) (w : ResponseWriter) (r : Request) :
    List Event :=
  if r.MixedMsg.MsgType = "event" then
    let found := eventHandlerTraced mux r.MixedMsg.Event
    if found.2 = MessageHandler.nil then found.1
    else found.1 ++ [Event.serve found.2 w r]
  else
    let found := messageHandlerTraced mux r.MixedMsg.MsgType
    if found.2 = MessageHandler.nil then found.1
    else found.1 ++ [Event.serve found.2 w r]

/-- Perform one registration call on the router, with its events. -/
def Registration.runTraced (mux : MessageServeMux) : Registration → List Event × Outcome
  | Registration.messageHandle k h => MessageHandleTraced mux k h
  | Registration.messageHandleFunc k f => MessageHandleFuncTraced mux k f
  | Registration.defaultMessageHandle h => DefaultMessageHandleTraced mux h
  | Registration.defaultMessageHandleFunc f => DefaultMessageHandleFuncTraced mux f
  | Registration.eventHandle k h => EventHandleTraced mux k h
  | Registration.eventHandleFunc k f => EventHandleFuncTraced mux k f
  | Registration.defaultEventHandle h => DefaultEventHandleTraced mux h
  | Registration.defaultEventHandleFunc f => DefaultEventHandleFuncTraced mux f

/-- The events of a sequence of registration calls made one after the other on
the router, as a handler that registers on the router it is called from makes
them. -/
def registerAllEvents (mux : MessageServeMux) : List Registration → List Event
  | [] => []
  | c :: cs =>
      (Registration.runTraced mux c).1 ++
        registerAllEvents (Registration.runTraced mux c).2.mux cs

/-- The handler call of an invocation, as an event. -/
def Event.ofInvocation (c : MessageHandler × ResponseWriter × Request) : Event :=
  Event.serve c.1 c.2.1 c.2.2

/-- The shape of a registration trace: no event and a panic, or `Lock`, then
field accesses only, then `Unlock`, and a normal return. -/
def registrationShape (t : List Event × Outcome) : Prop :=
  (t.1 = [] ∧ t.2.panic ≠ none) ∨
  (∃ body, t.1 = Event.Lock :: (body ++ [Event.Unlock]) ∧
    (∀ e ∈ body, Event.isAccess e = true) ∧ Event.write ∈ body ∧ t.2.panic = none)

/-! ## Lemmas on maps -/

theorem HandlerMap.index_of_not_hasKey (m : HandlerMap) (k : String)
    (h : HandlerMap.hasKey m k = false) : HandlerMap.index m k = MessageHandler.nil := by
  unfold HandlerMap.hasKey at h
  unfold HandlerMap.index
  cases he : HandlerMap.entry m k with
  | none => rfl
  | some v => rw [he] at h; cases h

theorem HandlerMap.assign_make_of_isNil (m : HandlerMap) (k : String) (v : MessageHandler) :
    ∃ t, HandlerMap.assign (if HandlerMap.isNil m then HandlerMap.make else m) k v = some t ∧
      t k = some v ∧ ∀ k', k' ≠ k → t k' = HandlerMap.entry m k' := by
  cases m with
  | none =>
    refine ⟨fun k' => if k' = k then some v else none, rfl, by simp, ?_⟩
    intro k' hk
    simp [hk, HandlerMap.entry]
  | some t =>
    refine ⟨fun k' => if k' = k then some v else t k', rfl, by simp, ?_⟩
    intro k' hk
    simp [hk, HandlerMap.entry]

theorem MessageHandle_mux (mux : MessageServeMux) (k : String) (h : MessageHandler)
    (hk : k ≠ "") (hh : h ≠ MessageHandler.nil) :
    (MessageHandle mux k h).panic = none ∧
    (MessageHandle mux k h).mux =
      { mux with
        messageHandlers :=
          HandlerMap.assign
            (if HandlerMap.isNil mux.messageHandlers then HandlerMap.make
             else mux.messageHandlers) k h } := by
  unfold MessageHandle
  rw [if_neg hk, if_neg hh]
  refine ⟨rfl, ?_⟩
  cases hm : HandlerMap.isNil mux.messageHandlers <;> simp

theorem EventHandle_mux (mux : MessageServeMux) (k : String) (h : MessageHandler)
    (hk : k ≠ "") (hh : h ≠ MessageHandler.nil) :
    (EventHandle mux k h).panic = none ∧
    (EventHandle mux k h).mux =
      { mux with
        eventHandlers :=
          HandlerMap.assign
            (if HandlerMap.isNil mux.eventHandlers then HandlerMap.make
             else mux.eventHandlers) k h } := by
  unfold EventHandle
  rw [if_neg hk, if_neg hh]
  refine ⟨rfl, ?_⟩
  cases hm : HandlerMap.isNil mux.eventHandlers <;> simp

theorem messageHandler_MessageHandle_same (mux : MessageServeMux) (k : String)
    (h : MessageHandler) (hk : k ≠ "") (hh : h ≠ MessageHandler.nil) :
    messageHandler (MessageHandle mux k h).mux k = h := by
  obtain ⟨t, ht, htk, -⟩ := HandlerMap.assign_make_of_isNil mux.messageHandlers k h
  rw [(MessageHandle_mux mux k h hk hh).2]
  unfold messageHandler
  simp only [ht, HandlerMap.index, HandlerMap.entry, htk, Option.getD_some]
  rw [if_neg hk, if_pos hh]

theorem eventHandler_EventHandle_same (mux : MessageServeMux) (k : String)
    (h : MessageHandler) (hk : k ≠ "") (hh : h ≠ MessageHandler.nil) :
    eventHandler (EventHandle mux k h).mux k = h := by
  obtain ⟨t, ht, htk, -⟩ := HandlerMap.assign_make_of_isNil mux.eventHandlers k h
  rw [(EventHandle_mux mux k h hk hh).2]
  unfold eventHandler
  simp only [ht, HandlerMap.index, HandlerMap.entry, htk, Option.getD_some]
  rw [if_neg hk, if_pos hh]

/-! ## Dispatch after registration -/

/-- C1 (as amended): for every router state, every discriminator `d` that is
neither empty nor the reserved value "event", and every non-nil handler `h`,
`MessageHandle(d, h)` returns without panicking, and afterwards `ServeMessage(w, r)`
on any request whose `MsgType` is `d` performs exactly one effect, the call
`h.ServeMessage(w, r)`; whatever the tables and defaults held before. -/
theorem ServeMessage_after_MessageHandle (mux : MessageServeMux) (d : String)
    (h : MessageHandler) (w : ResponseWriter) (r : Request)
    (hd : d ≠ "") (hev : d ≠ "event") (hh : h ≠ MessageHandler.nil)
    (hr : r.MixedMsg.MsgType = d) :
    (MessageHandle mux d h).panic = none ∧
    ServeMessage (MessageHandle mux d h).mux w r = [Effect.serve h w r] := by
  refine ⟨(MessageHandle_mux mux d h hd hh).1, ?_⟩
  unfold ServeMessage
  rw [hr, if_neg hev]
  simp only [messageHandler_MessageHandle_same mux d h hd hh]
  rw [if_neg hh]

/-- Witness for C1 as amended: on a router that already has a handler for "text"
and a default message handler, registering handler 3 for "text" makes a "text"
request go to handler 3 alone. -/
theorem ServeMessage_after_MessageHandle_witness :
    (MessageHandle
        (DefaultMessageHandle
          (MessageHandle NewMessageServeMux "text" (MessageHandler.impl 1)).mux
          (MessageHandler.impl 2)).mux
        "text" (MessageHandler.impl 3)).panic = none ∧
    ServeMessage
      (MessageHandle
        (DefaultMessageHandle
          (MessageHandle NewMessageServeMux "text" (MessageHandler.impl 1)).mux
          (MessageHandler.impl 2)).mux
        "text" (MessageHandler.impl 3)).mux
      7 { MixedMsg := { MsgType := "text", Event := "" }, rest := 0 } =
      [Effect.serve (MessageHandler.impl 3) 7
        { MixedMsg := { MsgType := "text", Event := "" }, rest := 0 }] :=
  ServeMessage_after_MessageHandle _ "text" (MessageHandler.impl 3) 7
    { MixedMsg := { MsgType := "text", Event := "" }, rest := 0 }
    (by decide) (by decide) (by decide) rfl

/-- Counterexample to C1 as stated: "event" is a non-empty discriminator and
handler 1 is non-nil, `MessageHandle("event", handler 1)` returns, and yet a
request whose `MsgType` is "event" (with `Event` "click") invokes nothing. -/
theorem ServeMessage_after_MessageHandle_event_counterexample :
    "event" ≠ "" ∧ MessageHandler.impl 1 ≠ MessageHandler.nil ∧
    (MessageHandle NewMessageServeMux "event" (MessageHandler.impl 1)).panic = none ∧
    ServeMessage (MessageHandle NewMessageServeMux "event" (MessageHandler.impl 1)).mux 7
      { MixedMsg := { MsgType := "event", Event := "click" }, rest := 0 } = [] ∧
    ServeMessage (MessageHandle NewMessageServeMux "event" (MessageHandler.impl 1)).mux 7
      { MixedMsg := { MsgType := "event", Event := "click" }, rest := 0 } ≠
      [Effect.serve (MessageHandler.impl 1) 7
        { MixedMsg := { MsgType := "event", Event := "click" }, rest := 0 }] := by
  refine ⟨by decide, by decide, by decide, ?_, ?_⟩ <;> decide

/-- C2: for every router state, every non-empty event type `e` and every
non-nil handler `h`, `EventHandle(e, h)` returns without panicking, and
afterwards `ServeMessage(w, r)` on any request with `MsgType` "event" and
`Event` equal to `e` performs exactly one effect, the call
`h.ServeMessage(w, r)`; whatever the tables and defaults held before. -/
theorem ServeMessage_after_EventHandle (mux : MessageServeMux) (e : String)
    (h : MessageHandler) (w : ResponseWriter) (r : Request)
    (he : e ≠ "") (hh : h ≠ MessageHandler.nil)
    (hr : r.MixedMsg.MsgType = "event") (hre : r.MixedMsg.Event = e) :
    (EventHandle mux e h).panic = none ∧
    ServeMessage (EventHandle mux e h).mux w r = [Effect.serve h w r] := by
  refine ⟨(EventHandle_mux mux e h he hh).1, ?_⟩
  unfold ServeMessage
  rw [if_pos hr, hre]
  simp only [eventHandler_EventHandle_same mux e h he hh]
  rw [if_neg hh]

/-- Witness for C2: on a router holding a message handler for "subscribe", an
older event handler for "subscribe" and both defaults, registering handler 5 for
the event "subscribe" makes a subscribe event go to handler 5 alone. -/
theorem ServeMessage_after_EventHandle_witness :
    (EventHandle
        (DefaultEventHandle
          (DefaultMessageHandle
            (EventHandle
              (MessageHandle NewMessageServeMux "subscribe" (MessageHandler.impl 1)).mux
              "subscribe" (MessageHandler.impl 2)).mux
            (MessageHandler.impl 3)).mux
          (MessageHandler.impl 4)).mux
        "subscribe" (MessageHandler.impl 5)).panic = none ∧
    ServeMessage
      (EventHandle
        (DefaultEventHandle
          (DefaultMessageHandle
            (EventHandle
              (MessageHandle NewMessageServeMux "subscribe" (MessageHandler.impl 1)).mux
              "subscribe" (MessageHandler.impl 2)).mux
            (MessageHandler.impl 3)).mux
          (MessageHandler.impl 4)).mux
        "subscribe" (MessageHandler.impl 5)).mux
      7 { MixedMsg := { MsgType := "event", Event := "subscribe" }, rest := 0 } =
      [Effect.serve (MessageHandler.impl 5) 7
        { MixedMsg := { MsgType := "event", Event := "subscribe" }, rest := 0 }] :=
  ServeMessage_after_EventHandle _ "subscribe" (MessageHandler.impl 5) 7
    { MixedMsg := { MsgType := "event", Event := "subscribe" }, rest := 0 }
    (by decide) (by decide) rfl rfl

/-! ## Fallback to the defaults and the silent drop -/

/-- C3 (as amended): for every router state and every request whose consulted
key is not the empty string, if that key is not a key of the consulted table
and the default handler of that table is set, `ServeMessage(w, r)` performs
exactly one effect, the call of that default handler with `(w, r)`. -/
theorem ServeMessage_default (mux : MessageServeMux) (w : ResponseWriter) (r : Request)
    (hkey : consultedKey r ≠ "")
    (hmiss : HandlerMap.hasKey (consultedTable mux r) (consultedKey r) = false)
    (hdef : consultedDefault mux r ≠ MessageHandler.nil) :
    ServeMessage mux w r = [Effect.serve (consultedDefault mux r) w r] := by
  unfold consultedKey at hkey hmiss
  unfold consultedTable at hmiss
  unfold consultedDefault at hdef ⊢
  unfold ServeMessage
  by_cases hev : r.MixedMsg.MsgType = "event"
  · rw [if_pos hev] at hkey hmiss hdef
    rw [if_pos hev] at hmiss
    rw [if_pos hev, if_pos hev]
    have hidx := HandlerMap.index_of_not_hasKey _ _ hmiss
    simp only [eventHandler, hidx]
    rw [if_neg hkey]
    simp [hdef]
  · rw [if_neg hev] at hkey hmiss hdef
    rw [if_neg hev] at hmiss
    rw [if_neg hev, if_neg hev]
    have hidx := HandlerMap.index_of_not_hasKey _ _ hmiss
    simp only [messageHandler, hidx]
    rw [if_neg hkey]
    simp [hdef]

/-- Witness for C3 as amended: with "text" registered and handler 3 the default
message handler, an "image" request goes to handler 3. -/
theorem ServeMessage_default_witness :
    ServeMessage
      (DefaultMessageHandle
        (MessageHandle NewMessageServeMux "text" (MessageHandler.impl 1)).mux
        (MessageHandler.impl 3)).mux
      7 { MixedMsg := { MsgType := "image", Event := "" }, rest := 0 } =
      [Effect.serve (MessageHandler.impl 3) 7
        { MixedMsg := { MsgType := "image", Event := "" }, rest := 0 }] :=
  ServeMessage_default
    (DefaultMessageHandle
      (MessageHandle NewMessageServeMux "text" (MessageHandler.impl 1)).mux
      (MessageHandler.impl 3)).mux
    7 { MixedMsg := { MsgType := "image", Event := "" }, rest := 0 }
    (by decide) (by decide) (by decide)

/-- Counterexample to C3 as stated: handler 3 is registered as the default
message handler, the request has the empty `MsgType`, which is not a key of the
message table, and yet `ServeMessage` invokes nothing. -/
theorem ServeMessage_default_empty_key_counterexample :
    HandlerMap.hasKey
      (consultedTable (DefaultMessageHandle NewMessageServeMux (MessageHandler.impl 3)).mux
        { MixedMsg := { MsgType := "", Event := "" }, rest := 0 })
      (consultedKey { MixedMsg := { MsgType := "", Event := "" }, rest := 0 }) = false ∧
    consultedDefault (DefaultMessageHandle NewMessageServeMux (MessageHandler.impl 3)).mux
      { MixedMsg := { MsgType := "", Event := "" }, rest := 0 } = MessageHandler.impl 3 ∧
    ServeMessage (DefaultMessageHandle NewMessageServeMux (MessageHandler.impl 3)).mux 7
      { MixedMsg := { MsgType := "", Event := "" }, rest := 0 } = [] := by
  refine ⟨?_, ?_, ?_⟩ <;> decide

/-- C4: for every router state and every request, if the consulted key is not
a key of the consulted table and that table's own default is unset, then
`ServeMessage(w, r)` performs no effect at all: it invokes no handler and
writes zero bytes to `w`, whatever the other table and the other default
hold. -/
theorem ServeMessage_no_handler (mux : MessageServeMux) (w : ResponseWriter) (r : Request)
    (hmiss : HandlerMap.hasKey (consultedTable mux r) (consultedKey r) = false)
    (hdef : consultedDefault mux r = MessageHandler.nil) :
    ServeMessage mux w r = [] ∧
    invocations (ServeMessage mux w r) = [] ∧
    bytesWritten w (ServeMessage mux w r) = 0 := by
  have key : ServeMessage mux w r = [] := by
    unfold consultedKey at hmiss
    unfold consultedTable at hmiss
    unfold consultedDefault at hdef
    unfold ServeMessage
    by_cases hev : r.MixedMsg.MsgType = "event"
    · rw [if_pos hev] at hmiss hdef
      rw [if_pos hev] at hmiss
      rw [if_pos hev]
      have hidx := HandlerMap.index_of_not_hasKey _ _ hmiss
      simp [eventHandler, hidx, hdef]
    · rw [if_neg hev] at hmiss hdef
      rw [if_neg hev] at hmiss
      rw [if_neg hev]
      have hidx := HandlerMap.index_of_not_hasKey _ _ hmiss
      simp [messageHandler, hidx, hdef]
  rw [key]
  exact ⟨rfl, rfl, rfl⟩

/-- Witness for C4: with message handler "text", event handler "subscribe" and
a default message handler registered but no default event handler, a "click"
event is dropped. -/
theorem ServeMessage_no_handler_witness :
    ServeMessage
      (DefaultMessageHandle
        (EventHandle
          (MessageHandle NewMessageServeMux "text" (MessageHandler.impl 1)).mux
          "subscribe" (MessageHandler.impl 2)).mux
        (MessageHandler.impl 3)).mux
      7 { MixedMsg := { MsgType := "event", Event := "click" }, rest := 0 } = [] :=
  (ServeMessage_no_handler
    (DefaultMessageHandle
      (EventHandle
        (MessageHandle NewMessageServeMux "text" (MessageHandler.impl 1)).mux
        "subscribe" (MessageHandler.impl 2)).mux
      (MessageHandler.impl 3)).mux
    7 { MixedMsg := { MsgType := "event", Event := "click" }, rest := 0 }
    (by decide) (by decide)).1

/-! ## Rejected registrations -/

/-- C5: `MessageHandle(k, h)` and `EventHandle(k, h)` panic exactly when `k` is
empty or `h` is nil, `DefaultMessageHandle(h)` and `DefaultEventHandle(h)`
panic exactly when `h` is nil, and a call that panics leaves the router (both
tables and both default slots) exactly as it was. -/
theorem registration_panics_iff (mux : MessageServeMux) (k : String) (h : MessageHandler) :
    (((MessageHandle mux k h).panic ≠ none ↔ (k = "" ∨ h = MessageHandler.nil)) ∧
     ((EventHandle mux k h).panic ≠ none ↔ (k = "" ∨ h = MessageHandler.nil)) ∧
     ((DefaultMessageHandle mux h).panic ≠ none ↔ h = MessageHandler.nil) ∧
     ((DefaultEventHandle mux h).panic ≠ none ↔ h = MessageHandler.nil)) ∧
    (((MessageHandle mux k h).panic ≠ none → (MessageHandle mux k h).mux = mux) ∧
     ((EventHandle mux k h).panic ≠ none → (EventHandle mux k h).mux = mux) ∧
     ((DefaultMessageHandle mux h).panic ≠ none → (DefaultMessageHandle mux h).mux = mux) ∧
     ((DefaultEventHandle mux h).panic ≠ none → (DefaultEventHandle mux h).mux = mux)) := by
  refine ⟨⟨?_, ?_, ?_, ?_⟩, ?_, ?_, ?_, ?_⟩
  · unfold MessageHandle
    by_cases hk : k = "" <;> by_cases hh : h = MessageHandler.nil <;> simp [hk, hh]
  · unfold EventHandle
    by_cases hk : k = "" <;> by_cases hh : h = MessageHandler.nil <;> simp [hk, hh]
  · unfold DefaultMessageHandle
    by_cases hh : h = MessageHandler.nil <;> simp [hh]
  · unfold DefaultEventHandle
    by_cases hh : h = MessageHandler.nil <;> simp [hh]
  · unfold MessageHandle
    by_cases hk : k = "" <;> by_cases hh : h = MessageHandler.nil <;> simp [hk, hh]
  · unfold EventHandle
    by_cases hk : k = "" <;> by_cases hh : h = MessageHandler.nil <;> simp [hk, hh]
  · unfold DefaultMessageHandle
    by_cases hh : h = MessageHandler.nil <;> simp [hh]
  · unfold DefaultEventHandle
    by_cases hh : h = MessageHandler.nil <;> simp [hh]

/-- Instance of C5: on a router with a "text" handler, registering the nil
handler for "text" panics with "mp: nil handler" and `ServeMessage` still
dispatches to the old handler; registering under the empty key panics with
"mp: invalid msgType". -/
theorem registration_panics_iff_witness :
    (MessageHandle (MessageHandle NewMessageServeMux "text" (MessageHandler.impl 1)).mux
      "text" MessageHandler.nil).panic ≠ none ∧
    (MessageHandle (MessageHandle NewMessageServeMux "text" (MessageHandler.impl 1)).mux
      "text" MessageHandler.nil).mux =
      (MessageHandle NewMessageServeMux "text" (MessageHandler.impl 1)).mux ∧
    (MessageHandle NewMessageServeMux "" (MessageHandler.impl 1)).panic =
      some "mp: invalid msgType" :=
  have h := registration_panics_iff
    (MessageHandle NewMessageServeMux "text" (MessageHandler.impl 1)).mux
    "text" MessageHandler.nil
  ⟨h.1.1.2 (Or.inr rfl), h.2.1 (h.1.1.2 (Or.inr rfl)), by decide⟩

/-! ## Independence of the two tables -/

/-- C6: for every router state, key `k` and handler `h` (valid or not),
`MessageHandle(k, h)` and `DefaultMessageHandle(h)` leave the result of
`eventHandler(e)` unchanged for every `e`, and `EventHandle(k, h)` and
`DefaultEventHandle(h)` leave the result of `messageHandler(m)` unchanged for
every `m`; `e` and `m` may equal `k`. -/
theorem tables_independent (mux : MessageServeMux) (k : String) (h : MessageHandler) :
    (∀ e, eventHandler (MessageHandle mux k h).mux e = eventHandler mux e) ∧
    (∀ m, messageHandler (EventHandle mux k h).mux m = messageHandler mux m) ∧
    (∀ e, eventHandler (DefaultMessageHandle mux h).mux e = eventHandler mux e) ∧
    (∀ m, messageHandler (DefaultEventHandle mux h).mux m = messageHandler mux m) := by
  refine ⟨?_, ?_, ?_, ?_⟩
  · intro e
    unfold MessageHandle
    by_cases hk : k = "" <;> by_cases hh : h = MessageHandler.nil <;>
      cases hm : HandlerMap.isNil mux.messageHandlers <;> simp [hk, hh, eventHandler]
  · intro m
    unfold EventHandle
    by_cases hk : k = "" <;> by_cases hh : h = MessageHandler.nil <;>
      cases hm : HandlerMap.isNil mux.eventHandlers <;> simp [hk, hh, messageHandler]
  · intro e
    unfold DefaultMessageHandle
    by_cases hh : h = MessageHandler.nil <;> simp [hh, eventHandler]
  · intro m
    unfold DefaultEventHandle
    by_cases hh : h = MessageHandler.nil <;> simp [hh, messageHandler]

/-- Instance of C6: after an event handler for "text" is registered on a router
with message handler 1 for "text", `messageHandler("text")` is still handler 1
and `eventHandler("text")` is the new handler 2. -/
theorem tables_independent_witness :
    messageHandler
      (EventHandle (MessageHandle NewMessageServeMux "text" (MessageHandler.impl 1)).mux
        "text" (MessageHandler.impl 2)).mux "text" = MessageHandler.impl 1 ∧
    eventHandler
      (EventHandle (MessageHandle NewMessageServeMux "text" (MessageHandler.impl 1)).mux
        "text" (MessageHandler.impl 2)).mux "text" = MessageHandler.impl 2 :=
  ⟨((tables_independent (MessageHandle NewMessageServeMux "text" (MessageHandler.impl 1)).mux
      "text" (MessageHandler.impl 2)).2.1 "text").trans (by decide), by decide⟩

/-! ## Empty keys on inbound requests -/

/-- C7: for every router state, in particular every state reachable by
registration calls with defaults set, `ServeMessage(w, r)` on a request whose
`MsgType` is empty, or whose `MsgType` is "event" and whose `Event` is empty,
performs no effect: it returns the empty effect list, so it invokes no handler
and writes nothing to `w`. -/
theorem ServeMessage_empty_key (mux : MessageServeMux) (w : ResponseWriter) (r : Request)
    (hr : r.MixedMsg.MsgType = "" ∨
      (r.MixedMsg.MsgType = "event" ∧ r.MixedMsg.Event = "")) :
    ServeMessage mux w r = [] ∧
    invocations (ServeMessage mux w r) = [] ∧
    bytesWritten w (ServeMessage mux w r) = 0 := by
  have key : ServeMessage mux w r = [] := by
    unfold ServeMessage
    rcases hr with h0 | ⟨hev, he⟩
    · have hne : ¬ r.MixedMsg.MsgType = "event" := by rw [h0]; decide
      rw [if_neg hne]
      simp [messageHandler, h0]
    · rw [if_pos hev]
      simp [eventHandler, he]
  rw [key]
  exact ⟨rfl, rfl, rfl⟩

/-- Witness for C7: with both defaults and a handler in each table registered,
an event request with the empty `Event` is dropped. -/
theorem ServeMessage_empty_key_witness :
    ServeMessage
      (DefaultEventHandle
        (DefaultMessageHandle
          (EventHandle
            (MessageHandle NewMessageServeMux "text" (MessageHandler.impl 1)).mux
            "subscribe" (MessageHandler.impl 2)).mux
          (MessageHandler.impl 3)).mux
        (MessageHandler.impl 4)).mux
      7 { MixedMsg := { MsgType := "event", Event := "" }, rest := 0 } = [] :=
  (ServeMessage_empty_key
    (DefaultEventHandle
      (DefaultMessageHandle
        (EventHandle
          (MessageHandle NewMessageServeMux "text" (MessageHandler.impl 1)).mux
          "subscribe" (MessageHandler.impl 2)).mux
        (MessageHandler.impl 3)).mux
      (MessageHandler.impl 4)).mux
    7 { MixedMsg := { MsgType := "event", Event := "" }, rest := 0 }
    (Or.inr ⟨rfl, rfl⟩)).1

/-! ## The reserved key "event" in the message table -/

theorem messageHandler_MessageHandle_other (mux : MessageServeMux) (k m : String)
    (h : MessageHandler) (hm : m ≠ k) :
    messageHandler (MessageHandle mux k h).mux m = messageHandler mux m := by
  by_cases hk : k = ""
  · simp [MessageHandle, hk]
  by_cases hh : h = MessageHandler.nil
  · simp [MessageHandle, hk, hh]
  obtain ⟨t, ht, -, hrest⟩ := HandlerMap.assign_make_of_isNil mux.messageHandlers k h
  rw [(MessageHandle_mux mux k h hk hh).2]
  unfold messageHandler
  simp only [ht, HandlerMap.index]
  have : HandlerMap.entry (some t) m = HandlerMap.entry mux.messageHandlers m := by
    simpa [HandlerMap.entry] using hrest m hm
  rw [this]

/-- C8: for every router state, handler `h` and request, registering `h` under
the key "event" in the message table changes nothing about what `ServeMessage`
does, on any request; and for a request whose `MsgType` is "event", what
`ServeMessage` does is the same in any two router states that agree on the
event table and the default event handler, so neither the message table nor
the default message handler takes part in it. -/
theorem message_table_event_entry_inert (mux mux' : MessageServeMux) (h : MessageHandler)
    (w : ResponseWriter) (r : Request) :
    ServeMessage (MessageHandle mux "event" h).mux w r = ServeMessage mux w r ∧
    (r.MixedMsg.MsgType = "event" →
      mux'.eventHandlers = mux.eventHandlers →
      mux'.defaultEventHandler = mux.defaultEventHandler →
      ServeMessage mux' w r = ServeMessage mux w r) := by
  constructor
  · unfold ServeMessage
    by_cases hev : r.MixedMsg.MsgType = "event"
    · rw [if_pos hev, if_pos hev]
      have : eventHandler (MessageHandle mux "event" h).mux r.MixedMsg.Event =
          eventHandler mux r.MixedMsg.Event := by
        unfold MessageHandle
        by_cases hh : h = MessageHandler.nil <;>
          cases hm : HandlerMap.isNil mux.messageHandlers <;> simp [hh, eventHandler]
      rw [this]
    · rw [if_neg hev, if_neg hev]
      rw [messageHandler_MessageHandle_other mux "event" r.MixedMsg.MsgType h hev]
  · intro hev ht hd
    unfold ServeMessage
    rw [if_pos hev, if_pos hev]
    simp only [eventHandler, ht, hd]

/-- Instance of C8: with handler 1 registered under "event" in the message
table and handler 9 as default message handler, a "click" event is dropped,
and once handler 2 is the event handler for "click" the event goes to
handler 2. -/
theorem message_table_event_entry_inert_witness :
    ServeMessage
      (DefaultMessageHandle
        (MessageHandle NewMessageServeMux "event" (MessageHandler.impl 1)).mux
        (MessageHandler.impl 9)).mux
      7 { MixedMsg := { MsgType := "event", Event := "click" }, rest := 0 } = [] ∧
    ServeMessage
      (MessageHandle
        (EventHandle NewMessageServeMux "click" (MessageHandler.impl 2)).mux
        "event" (MessageHandler.impl 1)).mux
      7 { MixedMsg := { MsgType := "event", Event := "click" }, rest := 0 } =
      [Effect.serve (MessageHandler.impl 2) 7
        { MixedMsg := { MsgType := "event", Event := "click" }, rest := 0 }] :=
  ⟨by decide,
   ((message_table_event_entry_inert
      (EventHandle NewMessageServeMux "click" (MessageHandler.impl 2)).mux
      NewMessageServeMux (MessageHandler.impl 1) 7
      { MixedMsg := { MsgType := "event", Event := "click" }, rest := 0 }).1).trans
    (by decide)⟩

/-! ## What registration can store -/

theorem HandlerMap.assign_checked (m : HandlerMap) (k : String) (v : MessageHandler)
    (hk : k ≠ "") (hv : v ≠ MessageHandler.nil)
    (h0 : HandlerMap.hasKey m "" = false)
    (hn : ∀ k', HandlerMap.entry m k' ≠ some MessageHandler.nil) :
    HandlerMap.hasKey
        (HandlerMap.assign (if HandlerMap.isNil m then HandlerMap.make else m) k v) "" = false ∧
    ∀ k', HandlerMap.entry
        (HandlerMap.assign (if HandlerMap.isNil m then HandlerMap.make else m) k v) k' ≠
      some MessageHandler.nil := by
  obtain ⟨t, ht, htk, hrest⟩ := HandlerMap.assign_make_of_isNil m k v
  rw [ht]
  constructor
  · have : t "" = HandlerMap.entry m "" := hrest "" (fun h => hk h.symm)
    simpa [HandlerMap.hasKey, HandlerMap.entry, this] using h0
  · intro k'
    by_cases hkk : k' = k
    · subst hkk
      simp only [HandlerMap.entry, htk]
      intro h
      exact hv (Option.some.inj h)
    · simp only [HandlerMap.entry, hrest k' hkk]
      exact hn k'

theorem MessageHandle_checked (mux : MessageServeMux) (k : String) (h : MessageHandler)
    (inv : KeysAndValuesChecked mux) : KeysAndValuesChecked (MessageHandle mux k h).mux := by
  by_cases hk : k = ""
  · simpa [MessageHandle, hk] using inv
  by_cases hh : h = MessageHandler.nil
  · simpa [MessageHandle, hk, hh] using inv
  rw [(MessageHandle_mux mux k h hk hh).2]
  obtain ⟨a, b, c, d⟩ := inv
  obtain ⟨x, y⟩ := HandlerMap.assign_checked mux.messageHandlers k h hk hh a c
  exact ⟨x, b, y, d⟩

theorem EventHandle_checked (mux : MessageServeMux) (k : String) (h : MessageHandler)
    (inv : KeysAndValuesChecked mux) : KeysAndValuesChecked (EventHandle mux k h).mux := by
  by_cases hk : k = ""
  · simpa [EventHandle, hk] using inv
  by_cases hh : h = MessageHandler.nil
  · simpa [EventHandle, hk, hh] using inv
  rw [(EventHandle_mux mux k h hk hh).2]
  obtain ⟨a, b, c, d⟩ := inv
  obtain ⟨x, y⟩ := HandlerMap.assign_checked mux.eventHandlers k h hk hh b d
  exact ⟨a, x, c, y⟩

theorem DefaultMessageHandle_checked (mux : MessageServeMux) (h : MessageHandler)
    (inv : KeysAndValuesChecked mux) : KeysAndValuesChecked (DefaultMessageHandle mux h).mux := by
  unfold DefaultMessageHandle
  by_cases hh : h = MessageHandler.nil <;> simpa [hh, KeysAndValuesChecked] using inv

theorem DefaultEventHandle_checked (mux : MessageServeMux) (h : MessageHandler)
    (inv : KeysAndValuesChecked mux) : KeysAndValuesChecked (DefaultEventHandle mux h).mux := by
  unfold DefaultEventHandle
  by_cases hh : h = MessageHandler.nil <;> simpa [hh, KeysAndValuesChecked] using inv

theorem Registration.run_checked (mux : MessageServeMux) (c : Registration)
    (inv : KeysAndValuesChecked mux) : KeysAndValuesChecked (Registration.run mux c).mux := by
  cases c with
  | messageHandle k h => exact MessageHandle_checked mux k h inv
  | messageHandleFunc k f => exact MessageHandle_checked mux k _ inv
  | defaultMessageHandle h => exact DefaultMessageHandle_checked mux h inv
  | defaultMessageHandleFunc f => exact DefaultMessageHandle_checked mux _ inv
  | eventHandle k h => exact EventHandle_checked mux k h inv
  | eventHandleFunc k f => exact EventHandle_checked mux k _ inv
  | defaultEventHandle h => exact DefaultEventHandle_checked mux h inv
  | defaultEventHandleFunc f => exact DefaultEventHandle_checked mux _ inv

theorem registerAll_checked (calls : List Registration) (mux : MessageServeMux)
    (inv : KeysAndValuesChecked mux) : KeysAndValuesChecked (registerAll mux calls) := by
  induction calls generalizing mux with
  | nil => exact inv
  | cons c cs ih => exact ih _ (Registration.run_checked mux c inv)

/-- In every reachable state the empty string is a key of neither table and
neither table stores the nil interface value. -/
theorem Reachable.keysAndValuesChecked (mux : MessageServeMux) (hr : Reachable mux) :
    KeysAndValuesChecked mux := by
  obtain ⟨calls, rfl⟩ := hr
  refine registerAll_checked calls NewMessageServeMux ⟨rfl, rfl, ?_, ?_⟩ <;>
    intro k <;> simp [NewMessageServeMux, HandlerMap.make, HandlerMap.entry]

/-- Evaluation for C9: `MessageHandleFunc("text", nil)` on a new router returns
without panicking and stores under "text" a handler that wraps the nil
function; the state is reachable, the stored handler is not invocable, and
`ServeMessage` on a "text" request calls its `ServeMessage` method, that is, the
nil function.  The same happens with `DefaultMessageHandleFunc(nil)` and any
message type. -/
theorem MessageHandleFunc_nil_function_stored :
    (MessageHandleFunc NewMessageServeMux "text" none).panic = none ∧
    Reachable (MessageHandleFunc NewMessageServeMux "text" none).mux ∧
    HandlerMap.entry (MessageHandleFunc NewMessageServeMux "text" none).mux.messageHandlers
      "text" = some (MessageHandler.func none) ∧
    MessageHandler.invocable (MessageHandler.func none) = false ∧
    ServeMessage (MessageHandleFunc NewMessageServeMux "text" none).mux 7
      { MixedMsg := { MsgType := "text", Event := "" }, rest := 0 } =
      [Effect.serve (MessageHandler.func none) 7
        { MixedMsg := { MsgType := "text", Event := "" }, rest := 0 }] ∧
    (DefaultMessageHandleFunc NewMessageServeMux none).panic = none ∧
    ServeMessage (DefaultMessageHandleFunc NewMessageServeMux none).mux 7
      { MixedMsg := { MsgType := "image", Event := "" }, rest := 0 } =
      [Effect.serve (MessageHandler.func none) 7
        { MixedMsg := { MsgType := "image", Event := "" }, rest := 0 }] := by
  refine ⟨by decide, ⟨[Registration.messageHandleFunc "text" none], rfl⟩, by decide, rfl,
    by decide, by decide, by decide⟩

/-! ## Lock discipline -/

theorem RWMutex.run_append (a b : List Event) (s : RWMutex) :
    RWMutex.run s (a ++ b) = (RWMutex.run s a).bind (fun s1 => RWMutex.run s1 b) := by
  induction a generalizing s with
  | nil => rfl
  | cons e rest ih =>
    simp only [List.cons_append, RWMutex.run]
    cases RWMutex.step s e with
    | none => rfl
    | some s1 => exact ih s1

theorem messageHandlerTraced_snd (mux : MessageServeMux) (k : String) :
    (messageHandlerTraced mux k).2 = messageHandler mux k := by
  unfold messageHandlerTraced messageHandler
  by_cases hk : k = ""
  · simp [hk]
  · by_cases hi : HandlerMap.index mux.messageHandlers k = MessageHandler.nil <;> simp [hk, hi]

theorem eventHandlerTraced_snd (mux : MessageServeMux) (k : String) :
    (eventHandlerTraced mux k).2 = eventHandler mux k := by
  unfold eventHandlerTraced eventHandler
  by_cases hk : k = ""
  · simp [hk]
  · by_cases hi : HandlerMap.index mux.eventHandlers k = MessageHandler.nil <;> simp [hk, hi]

theorem messageHandlerTraced_fst (mux : MessageServeMux) (k : String) :
    (messageHandlerTraced mux k).1 = [] ∨
    (messageHandlerTraced mux k).1 = [Event.RLock, Event.read, Event.RUnlock] ∨
    (messageHandlerTraced mux k).1 = [Event.RLock, Event.read, Event.read, Event.RUnlock] := by
  unfold messageHandlerTraced
  by_cases hk : k = ""
  · simp [hk]
  · by_cases hi : HandlerMap.index mux.messageHandlers k = MessageHandler.nil <;> simp [hk, hi]

theorem eventHandlerTraced_fst (mux : MessageServeMux) (k : String) :
    (eventHandlerTraced mux k).1 = [] ∨
    (eventHandlerTraced mux k).1 = [Event.RLock, Event.read, Event.RUnlock] ∨
    (eventHandlerTraced mux k).1 = [Event.RLock, Event.read, Event.read, Event.RUnlock] := by
  unfold eventHandlerTraced
  by_cases hk : k = ""
  · simp [hk]
  · by_cases hi : HandlerMap.index mux.eventHandlers k = MessageHandler.nil <;> simp [hk, hi]

/-- A lookup trace takes the mutex in read mode only, gives back what it took
(whatever other goroutines hold, as long as it can start), and keeps its reads
between `RLock` and `RUnlock`. -/
theorem lookup_events_balanced (evs : List Event)
    (h : evs = [] ∨ evs = [Event.RLock, Event.read, Event.RUnlock] ∨
      evs = [Event.RLock, Event.read, Event.read, Event.RUnlock]) :
    (∀ e ∈ evs, Event.isReadSide e = true) ∧
    (∀ s0 : RWMutex, s0.writer = false → RWMutex.run s0 evs = some s0) ∧
    locksRespected RWMutex.free evs = true ∧
    (∀ h w r, locksRespected RWMutex.free (evs ++ [Event.serve h w r]) = true) := by
  rcases h with h | h | h <;> subst h
  · refine ⟨by simp, fun s0 _ => rfl, by decide, fun h w r => by simp [locksRespected]⟩
  · refine ⟨by simp [Event.isReadSide], fun s0 hs => ?_, by decide,
      fun h w r => by simp [locksRespected, RWMutex.step, RWMutex.free]⟩
    cases s0 with
    | mk rd wr =>
      simp only at hs
      subst hs
      simp [RWMutex.run, RWMutex.step]
  · refine ⟨by simp [Event.isReadSide], fun s0 hs => ?_, by decide,
      fun h w r => by simp [locksRespected, RWMutex.step, RWMutex.free]⟩
    cases s0 with
    | mk rd wr =>
      simp only at hs
      subst hs
      simp [RWMutex.run, RWMutex.step]

theorem ServeMessageTraced_eq (mux : MessageServeMux) (w : ResponseWriter) (r : Request) :
    ∃ pre, (pre = [] ∨ pre = [Event.RLock, Event.read, Event.RUnlock] ∨
        pre = [Event.RLock, Event.read, Event.read, Event.RUnlock]) ∧
      ServeMessageTraced mux w r =
        pre ++ (invocations (ServeMessage mux w r)).map Event.ofInvocation ∧
      (ServeMessage mux w r = [] ∨ ∃ h, ServeMessage mux w r = [Effect.serve h w r]) := by
  unfold ServeMessageTraced ServeMessage
  by_cases hev : r.MixedMsg.MsgType = "event"
  · refine ⟨(eventHandlerTraced mux r.MixedMsg.Event).1, eventHandlerTraced_fst _ _, ?_, ?_⟩
    · simp only [if_pos hev, eventHandlerTraced_snd]
      by_cases hn : eventHandler mux r.MixedMsg.Event = MessageHandler.nil
      · simp [hn, invocations]
      · simp [hn, invocations, Event.ofInvocation]
    · simp only [if_pos hev]
      by_cases hn : eventHandler mux r.MixedMsg.Event = MessageHandler.nil
      · simp [hn]
      · simp [hn]
  · refine ⟨(messageHandlerTraced mux r.MixedMsg.MsgType).1, messageHandlerTraced_fst _ _, ?_, ?_⟩
    · simp only [if_neg hev, messageHandlerTraced_snd]
      by_cases hn : messageHandler mux r.MixedMsg.MsgType = MessageHandler.nil
      · simp [hn, invocations]
      · simp [hn, invocations, Event.ofInvocation]
    · simp only [if_neg hev]
      by_cases hn : messageHandler mux r.MixedMsg.MsgType = MessageHandler.nil
      · simp [hn]
      · simp [hn]

theorem MessageHandleTraced_spec (mux : MessageServeMux) (k : String) (h : MessageHandler) :
    (MessageHandleTraced mux k h).2 = MessageHandle mux k h ∧
    registrationShape (MessageHandleTraced mux k h) ∧
    locksRespected RWMutex.free (MessageHandleTraced mux k h).1 = true ∧
    RWMutex.run RWMutex.free (MessageHandleTraced mux k h).1 = some RWMutex.free := by
  unfold MessageHandleTraced MessageHandle registrationShape
  by_cases hk : k = ""
  · simp [hk, locksRespected, RWMutex.run]
  by_cases hh : h = MessageHandler.nil
  · simp [hk, hh, locksRespected, RWMutex.run]
  cases hm : HandlerMap.isNil mux.messageHandlers
  · refine ⟨by simp [hk, hh, hm], Or.inr ⟨[Event.read, Event.write], ?_⟩, ?_, ?_⟩
    · simp [hk, hh, hm, Event.isAccess]
    · simp [hk, hh, hm]; decide
    · simp [hk, hh, hm]; decide
  · refine ⟨by simp [hk, hh, hm], Or.inr ⟨[Event.read, Event.write, Event.write], ?_⟩, ?_, ?_⟩
    · simp [hk, hh, hm, Event.isAccess]
    · simp [hk, hh, hm]; decide
    · simp [hk, hh, hm]; decide

theorem EventHandleTraced_spec (mux : MessageServeMux) (k : String) (h : MessageHandler) :
    (EventHandleTraced mux k h).2 = EventHandle mux k h ∧
    registrationShape (EventHandleTraced mux k h) ∧
    locksRespected RWMutex.free (EventHandleTraced mux k h).1 = true ∧
    RWMutex.run RWMutex.free (EventHandleTraced mux k h).1 = some RWMutex.free := by
  unfold EventHandleTraced EventHandle registrationShape
  by_cases hk : k = ""
  · simp [hk, locksRespected, RWMutex.run]
  by_cases hh : h = MessageHandler.nil
  · simp [hk, hh, locksRespected, RWMutex.run]
  cases hm : HandlerMap.isNil mux.eventHandlers
  · refine ⟨by simp [hk, hh, hm], Or.inr ⟨[Event.read, Event.write], ?_⟩, ?_, ?_⟩
    · simp [hk, hh, hm, Event.isAccess]
    · simp [hk, hh, hm]; decide
    · simp [hk, hh, hm]; decide
  · refine ⟨by simp [hk, hh, hm], Or.inr ⟨[Event.read, Event.write, Event.write], ?_⟩, ?_, ?_⟩
    · simp [hk, hh, hm, Event.isAccess]
    · simp [hk, hh, hm]; decide
    · simp [hk, hh, hm]; decide

theorem DefaultMessageHandleTraced_spec (mux : MessageServeMux) (h : MessageHandler) :
    (DefaultMessageHandleTraced mux h).2 = DefaultMessageHandle mux h ∧
    registrationShape (DefaultMessageHandleTraced mux h) ∧
    locksRespected RWMutex.free (DefaultMessageHandleTraced mux h).1 = true ∧
    RWMutex.run RWMutex.free (DefaultMessageHandleTraced mux h).1 = some RWMutex.free := by
  unfold DefaultMessageHandleTraced DefaultMessageHandle registrationShape
  by_cases hh : h = MessageHandler.nil
  · simp [hh, locksRespected, RWMutex.run]
  · refine ⟨by simp [hh], Or.inr ⟨[Event.write], ?_⟩, ?_, ?_⟩
    · simp [hh, Event.isAccess]
    · simp [hh]; decide
    · simp [hh]; decide

theorem DefaultEventHandleTraced_spec (mux : MessageServeMux) (h : MessageHandler) :
    (DefaultEventHandleTraced mux h).2 = DefaultEventHandle mux h ∧
    registrationShape (DefaultEventHandleTraced mux h) ∧
    locksRespected RWMutex.free (DefaultEventHandleTraced mux h).1 = true ∧
    RWMutex.run RWMutex.free (DefaultEventHandleTraced mux h).1 = some RWMutex.free := by
  unfold DefaultEventHandleTraced DefaultEventHandle registrationShape
  by_cases hh : h = MessageHandler.nil
  · simp [hh, locksRespected, RWMutex.run]
  · refine ⟨by simp [hh], Or.inr ⟨[Event.write], ?_⟩, ?_, ?_⟩
    · simp [hh, Event.isAccess]
    · simp [hh]; decide
    · simp [hh]; decide

theorem Registration.runTraced_spec (mux : MessageServeMux) (c : Registration) :
    (Registration.runTraced mux c).2 = Registration.run mux c ∧
    registrationShape (Registration.runTraced mux c) ∧
    locksRespected RWMutex.free (Registration.runTraced mux c).1 = true ∧
    RWMutex.run RWMutex.free (Registration.runTraced mux c).1 = some RWMutex.free := by
  cases c with
  | messageHandle k h => exact MessageHandleTraced_spec mux k h
  | messageHandleFunc k f => exact MessageHandleTraced_spec mux k _
  | defaultMessageHandle h => exact DefaultMessageHandleTraced_spec mux h
  | defaultMessageHandleFunc f => exact DefaultMessageHandleTraced_spec mux _
  | eventHandle k h => exact EventHandleTraced_spec mux k h
  | eventHandleFunc k f => exact EventHandleTraced_spec mux k _
  | defaultEventHandle h => exact DefaultEventHandleTraced_spec mux h
  | defaultEventHandleFunc f => exact DefaultEventHandleTraced_spec mux _

theorem registerAllEvents_run (cs : List Registration) (mux : MessageServeMux) :
    RWMutex.run RWMutex.free (registerAllEvents mux cs) = some RWMutex.free := by
  induction cs generalizing mux with
  | nil => rfl
  | cons c cs ih =>
    simp only [registerAllEvents]
    rw [RWMutex.run_append, (Registration.runTraced_spec mux c).2.2.2]
    exact ih _

theorem RWMutex.run_invocations (l : List (MessageHandler × ResponseWriter × Request))
    (s : RWMutex) : RWMutex.run s (l.map Event.ofInvocation) = some s := by
  induction l with
  | nil => rfl
  | cons c rest ih => simpa [RWMutex.run, RWMutex.step, Event.ofInvocation] using ih

theorem ServeMessageTraced_run (mux : MessageServeMux) (w : ResponseWriter) (r : Request)
    (s0 : RWMutex) (hs : s0.writer = false) :
    RWMutex.run s0 (ServeMessageTraced mux w r) = some s0 := by
  obtain ⟨pre, hpre, heq, -⟩ := ServeMessageTraced_eq mux w r
  rw [heq, RWMutex.run_append, (lookup_events_balanced pre hpre).2.1 s0 hs]
  exact RWMutex.run_invocations _ s0

theorem ServeMessageTraced_locksRespected (mux : MessageServeMux) (w : ResponseWriter)
    (r : Request) : locksRespected RWMutex.free (ServeMessageTraced mux w r) = true := by
  obtain ⟨pre, hpre, heq, hcall⟩ := ServeMessageTraced_eq mux w r
  rw [heq]
  rcases hcall with h0 | ⟨h, h1⟩
  · rw [h0]
    simpa [invocations] using (lookup_events_balanced pre hpre).2.2.1
  · rw [h1]
    simpa [invocations, Event.ofInvocation] using (lookup_events_balanced pre hpre).2.2.2 h w r

/-- C10: lock discipline of the router, on the methods read with their mutex
calls.  For every router state, request, registration call, sequence of
registration calls and mutex state `s0` left by other goroutines:
(1) the events of `ServeMessage(w, r)` are a lookup part followed by exactly the
handler calls of `ServeMessage`; the lookup part holds only `RLock`, `RUnlock`
and reads of the router's fields, and run from any `s0` whose write lock is not
held it gives the mutex back as `s0`, so the read lock is released before the
handler is called;
(2) in `ServeMessage` every read of a field happens with the read lock held and
every handler call with no lock held, and nothing is held at the return;
(3) a registration call computes the same outcome as without the mutex, and
either panics on its arguments before touching the mutex or does `Lock`, then
reads and writes of the router's fields (at least one write), then `Unlock`,
every access happening with the write lock held; it never takes the read lock;
(4) a handler that makes registration calls on the same router while it runs
finds the mutex free: no call of the combined run blocks;
(5) another dispatch started while the handler runs does not block either. -/
theorem lock_discipline (mux : MessageServeMux) (w w2 : ResponseWriter) (r r2 : Request)
    (c : Registration) (cs : List Registration) (s0 : RWMutex) :
    (∃ pre, ServeMessageTraced mux w r =
        pre ++ (invocations (ServeMessage mux w r)).map Event.ofInvocation ∧
      (∀ e ∈ pre, Event.isReadSide e = true) ∧
      (s0.writer = false → RWMutex.run s0 pre = some s0)) ∧
    locksRespected RWMutex.free (ServeMessageTraced mux w r) = true ∧
    ((Registration.runTraced mux c).2 = Registration.run mux c ∧
      registrationShape (Registration.runTraced mux c) ∧
      locksRespected RWMutex.free (Registration.runTraced mux c).1 = true) ∧
    RWMutex.run RWMutex.free (ServeMessageTraced mux w r ++ registerAllEvents mux cs) =
      some RWMutex.free ∧
    RWMutex.run RWMutex.free (ServeMessageTraced mux w r ++ ServeMessageTraced mux w2 r2) =
      some RWMutex.free := by
  refine ⟨?_, ServeMessageTraced_locksRespected mux w r, ?_, ?_, ?_⟩
  · obtain ⟨pre, hpre, heq, -⟩ := ServeMessageTraced_eq mux w r
    exact ⟨pre, heq, (lookup_events_balanced pre hpre).1,
      (lookup_events_balanced pre hpre).2.1 s0⟩
  · exact ⟨(Registration.runTraced_spec mux c).1, (Registration.runTraced_spec mux c).2.1,
      (Registration.runTraced_spec mux c).2.2.1⟩
  · rw [RWMutex.run_append, ServeMessageTraced_run mux w r RWMutex.free rfl]
    exact registerAllEvents_run cs mux
  · rw [RWMutex.run_append, ServeMessageTraced_run mux w r RWMutex.free rfl]
    exact ServeMessageTraced_run mux w2 r2 RWMutex.free rfl

/-- Instance of C10: on a router with handler 1 for "text", a "text" request
gives `RLock`, one read, `RUnlock`, then the call of handler 1; a handler that
then registers handler 2 for "image" on the same router runs through; and had
the read lock still been held at that point, the `Lock` of the registration
could not proceed. -/
theorem lock_discipline_witness :
    ServeMessageTraced (MessageHandle NewMessageServeMux "text" (MessageHandler.impl 1)).mux 7
      { MixedMsg := { MsgType := "text", Event := "" }, rest := 0 } =
      [Event.RLock, Event.read, Event.RUnlock,
        Event.serve (MessageHandler.impl 1) 7
          { MixedMsg := { MsgType := "text", Event := "" }, rest := 0 }] ∧
    (Registration.runTraced
        (MessageHandle NewMessageServeMux "text" (MessageHandler.impl 1)).mux
        (Registration.messageHandle "image" (MessageHandler.impl 2))).1 =
      [Event.Lock, Event.read, Event.write, Event.Unlock] ∧
    RWMutex.run RWMutex.free
      (ServeMessageTraced (MessageHandle NewMessageServeMux "text" (MessageHandler.impl 1)).mux 7
          { MixedMsg := { MsgType := "text", Event := "" }, rest := 0 } ++
        registerAllEvents (MessageHandle NewMessageServeMux "text" (MessageHandler.impl 1)).mux
          [Registration.messageHandle "image" (MessageHandler.impl 2)]) =
      some RWMutex.free ∧
    RWMutex.run RWMutex.free
      [Event.RLock, Event.read,
        Event.serve (MessageHandler.impl 1) 7
          { MixedMsg := { MsgType := "text", Event := "" }, rest := 0 },
        Event.Lock, Event.read, Event.write, Event.Unlock, Event.RUnlock] = none :=
  ⟨by decide, by decide,
   (lock_discipline (MessageHandle NewMessageServeMux "text" (MessageHandler.impl 1)).mux 7 7
      { MixedMsg := { MsgType := "text", Event := "" }, rest := 0 }
      { MixedMsg := { MsgType := "text", Event := "" }, rest := 0 }
      (Registration.messageHandle "image" (MessageHandler.impl 2))
      [Registration.messageHandle "image" (MessageHandler.impl 2)] RWMutex.free).2.2.2.1,
   by decide⟩

end Mp
